import Mathlib

/-!
Shallow embedding of `petitdb.py` (classes `SmallDB` and `MemDB`).

Python dictionaries are embedded as association lists `List (String × α)`
with duplicate-free keys maintained by construction; the shelve backend is
embedded as the association list of its persisted contents (shelve writes
go through to the file immediately, so the `db` field of a state is the
file's contents).  Python values that the store manipulates are embedded
as the tagged type `PyVal`; `append`/`add` follow Python 2 duck typing on
that type (`.append` exists only on lists; `+=` works on int+int, str+str,
list+list and list+str, and raises `TypeError` otherwise, which the code
does not catch; a missing `.append` raises `AttributeError`, which
`SmallDB.append` catches and prints).

Every mutating method is a function `state → Option DBErr × state`: the
first component is the exception the Python method raises (`none` for a
normal return) and the second is the object's state when the method
returns or the exception escapes.
-/

namespace PetitDB

/-- The two construction modes accepted by `SmallDB.__init__`. -/
inductive Mode
  | ro
  | rw
deriving DecidableEq

/-- Embedded Python values stored in tables. -/
inductive PyVal
  | vInt (n : Int)
  | vStr (s : String)
  | vList (xs : List PyVal)

mutual

/-- Equality of embedded values is decidable (written by hand because the
nested `List` occurrence defeats the deriving handler). -/
def PyVal.decEq : (a b : PyVal) → Decidable (a = b)
  | PyVal.vInt m, PyVal.vInt n =>
      if h : m = n then isTrue (by rw [h])
      else isFalse (by intro hc; cases hc; exact h rfl)
  | PyVal.vStr x, PyVal.vStr y =>
      if h : x = y then isTrue (by rw [h])
      else isFalse (by intro hc; cases hc; exact h rfl)
  | PyVal.vList xs, PyVal.vList ys =>
      match PyVal.decEqList xs ys with
      | isTrue h => isTrue (by rw [h])
      | isFalse h => isFalse (by intro hc; cases hc; exact h rfl)
  | PyVal.vInt _, PyVal.vStr _ => isFalse fun h => PyVal.noConfusion h
  | PyVal.vInt _, PyVal.vList _ => isFalse fun h => PyVal.noConfusion h
  | PyVal.vStr _, PyVal.vInt _ => isFalse fun h => PyVal.noConfusion h
  | PyVal.vStr _, PyVal.vList _ => isFalse fun h => PyVal.noConfusion h
  | PyVal.vList _, PyVal.vInt _ => isFalse fun h => PyVal.noConfusion h
  | PyVal.vList _, PyVal.vStr _ => isFalse fun h => PyVal.noConfusion h

/-- Decidable equality of lists of embedded values. -/
def PyVal.decEqList : (a b : List PyVal) → Decidable (a = b)
  | [], [] => isTrue rfl
  | [], _ :: _ => isFalse fun h => List.noConfusion h
  | _ :: _, [] => isFalse fun h => List.noConfusion h
  | x :: xs, y :: ys =>
      match PyVal.decEq x y, PyVal.decEqList xs ys with
      | isTrue h1, isTrue h2 => isTrue (by rw [h1, h2])
      | isFalse h1, _ => isFalse (by intro hc; cases hc; exact h1 rfl)
      | _, isFalse h2 => isFalse (by intro hc; cases hc; exact h2 rfl)

end

instance : DecidableEq PyVal := PyVal.decEq

/-- A table: Python dict from key to value. -/
abbrev Table := List (String × PyVal)

/-- The shelve backend contents: Python dict from table name to table. -/
abbrev Backend := List (String × Table)

/-- The exceptions the code can raise.  `pyKeyError` and `pyTypeError` are
Python's builtin `KeyError`/`TypeError` escaping uncaught. -/
inductive DBErr
  | dbInitializationError
  | tableReferenceError
  | dbKeyError
  | duplicateKeyError
  | readOnlyDatabaseError
  | pyKeyError
  | pyTypeError
deriving DecidableEq

/-- Dict read: `d[k]` as an `Option`. -/
def alookup {α : Type} : List (String × α) → String → Option α
  | [], _ => none
  | (k', v) :: rest, k => if k' = k then some v else alookup rest k

/-- Dict write: `d[k] = v` (replace the binding if present, else add it). -/
def aset {α : Type} : List (String × α) → String → α → List (String × α)
  | [], k, v => [(k, v)]
  | (k', v') :: rest, k, v =>
      if k' = k then (k, v) :: rest else (k', v') :: aset rest k v

/-- Dict delete: `del d[k]` (the caller checks presence first). -/
def aerase {α : Type} : List (String × α) → String → List (String × α)
  | [], _ => []
  | (k', v') :: rest, k => if k' = k then rest else (k', v') :: aerase rest k

/-- `self.log[t] = ''`: the dirty log is a dict used as a set of names. -/
def logAdd (l : List String) (t : String) : List String :=
  if t ∈ l then l else l ++ [t]

/-- State of a `SmallDB` object: mode, shelve contents (`self.db`), staging
area (`self.db_ref`), dirty-table log (`self.log`), and whether
`self.db.close()` has been called on the shelve handle. -/
structure SmallState where
  mode : Mode
  db : Backend
  db_ref : Backend
  log : List String
  closed : Bool
deriving DecidableEq

/-- `SmallDB.__open__` on a backend that opens successfully: eagerly copy
every record into the staging area, start an empty log, and in `ro` mode
close the shelve handle at once. -/
def openSmall (b : Backend) (m : Mode) : SmallState :=
  { mode := m
    db := b
    db_ref := b
    log := []
    closed := match m with | Mode.ro => true | Mode.rw => false }

/-- `SmallDB.__init__(dbf, mode)`: a missing filename raises
`DBInitializationError` before any state exists. -/
def mkSmallDB (dbf : Option Backend) (m : Mode) : Except DBErr SmallState :=
  match dbf with
  | none => Except.error DBErr.dbInitializationError
  | some b => Except.ok (openSmall b m)

namespace SmallDB

/-- `SmallDB.create_table`: guard read-only mode, then install an empty
table (silently overwriting any existing one) and mark it dirty. -/
def create_table (s : SmallState) (t : String) : Option DBErr × SmallState :=
  if s.mode = Mode.ro then (some DBErr.readOnlyDatabaseError, s)
  else
    (none, { s with db_ref := aset s.db_ref t ([] : Table), log := logAdd s.log t })

/-- `SmallDB.select(table_name, key)` with a key (the keyless list form is
not used by any claim and is omitted). -/
def select (s : SmallState) (t k : String) : Except DBErr PyVal :=
  match alookup s.db_ref t with
  | none => Except.error DBErr.tableReferenceError
  | some tbl =>
      match alookup tbl k with
      | none => Except.error DBErr.dbKeyError
      | some v => Except.ok v

/-- Lines 166–175 of `SmallDB.insert`: the table is known to be `tbl`;
probe the key, raise `DuplicateKeyError` if present, else store and log. -/
def insertInto (s : SmallState) (t k : String) (v : PyVal) (tbl : Table) :
    Option DBErr × SmallState :=
  match alookup tbl k with
  | some _ => (some DBErr.duplicateKeyError, s)
  | none =>
      (none, { s with db_ref := aset s.db_ref t (aset tbl k v), log := logAdd s.log t })

/-- `SmallDB.insert`: guard read-only mode; if the table is missing,
`create_table` it and retry (the retry is unrolled here: after
`create_table` the table exists and is empty, so the inner recursive call
takes the `insertInto` branch with the empty table). -/
def insert (s : SmallState) (t k : String) (v : PyVal) : Option DBErr × SmallState :=
  if s.mode = Mode.ro then (some DBErr.readOnlyDatabaseError, s)
  else
    match alookup s.db_ref t with
    | some tbl => insertInto s t k v tbl
    | none => insertInto (create_table s t).2 t k v ([] : Table)

/-- `SmallDB.update`: guard read-only mode; a missing table raises
`TableReferenceError`; otherwise the assignment `table[key] = obj` always
succeeds (the `except KeyError` around it is dead code) and the table is
marked dirty. -/
def update (s : SmallState) (t k : String) (v : PyVal) : Option DBErr × SmallState :=
  if s.mode = Mode.ro then (some DBErr.readOnlyDatabaseError, s)
  else
    match alookup s.db_ref t with
    | none => (some DBErr.tableReferenceError, s)
    | some tbl =>
        (none, { s with db_ref := aset s.db_ref t (aset tbl k v), log := logAdd s.log t })

/-- Python 2 `obj.append(x)`: only lists have an `append` method; `none`
stands for the `AttributeError` raised otherwise. -/
def pyAppend (cur obj : PyVal) : Option PyVal :=
  match cur with
  | PyVal.vList xs => some (PyVal.vList (xs ++ [obj]))
  | _ => none

/-- Python 2 `cur += obj` on the embedded values: int+int, str+str,
list+list, and list extended by the characters of a string all succeed;
every other combination raises `TypeError`, represented by `none`. -/
def pyAdd (cur obj : PyVal) : Option PyVal :=
  match cur, obj with
  | PyVal.vInt a, PyVal.vInt b => some (PyVal.vInt (a + b))
  | PyVal.vStr a, PyVal.vStr b => some (PyVal.vStr (a ++ b))
  | PyVal.vList a, PyVal.vList b => some (PyVal.vList (a ++ b))
  | PyVal.vList a, PyVal.vStr b =>
      some (PyVal.vList (a ++ b.toList.map fun c => PyVal.vStr (String.mk [c])))
  | _, _ => none

/-- `SmallDB.append`: guard read-only mode; `select` the current value
(`DBKeyError`/`TableReferenceError` are re-raised without logging); a
value without an `append` method raises `AttributeError`, which the code
catches and prints — execution then falls through to `self.log[t] = ''`,
so the failed call still marks the table dirty and returns normally. -/
def append (s : SmallState) (t k : String) (v : PyVal) : Option DBErr × SmallState :=
  if s.mode = Mode.ro then (some DBErr.readOnlyDatabaseError, s)
  else
    match select s t k with
    | Except.error e => (some e, s)
    | Except.ok cur =>
        match pyAppend cur v with
        | none => (none, { s with log := logAdd s.log t })
        | some nv =>
            let r := update s t k nv
            (r.1, { r.2 with log := logAdd r.2.log t })

/-- `SmallDB.add`: like `append` but with `+=`; an unsupported `+=` raises
`TypeError`, which none of the `except` clauses catch (only
`AttributeError` is handled), so it escapes and the log line is never
reached. -/
def add (s : SmallState) (t k : String) (v : PyVal) : Option DBErr × SmallState :=
  if s.mode = Mode.ro then (some DBErr.readOnlyDatabaseError, s)
  else
    match select s t k with
    | Except.error e => (some e, s)
    | Except.ok cur =>
        match pyAdd cur v with
        | none => (some DBErr.pyTypeError, s)
        | some nv =>
            let r := update s t k nv
            (r.1, { r.2 with log := logAdd r.2.log t })

/-- `SmallDB.remove`: guard read-only mode; missing table raises
`TableReferenceError`, missing key raises `DBKeyError` (log untouched);
otherwise delete the key and mark the table dirty. -/
def remove (s : SmallState) (t k : String) : Option DBErr × SmallState :=
  if s.mode = Mode.ro then (some DBErr.readOnlyDatabaseError, s)
  else
    match alookup s.db_ref t with
    | none => (some DBErr.tableReferenceError, s)
    | some tbl =>
        match alookup tbl k with
        | none => (some DBErr.dbKeyError, s)
        | some _ =>
            (none, { s with db_ref := aset s.db_ref t (aerase tbl k), log := logAdd s.log t })

/-- `SmallDB.remove_table`: guard read-only mode; missing table raises
`TableReferenceError`; otherwise delete the table from the staging area
and mark its name dirty (the log entry is how `save` learns to delete). -/
def remove_table (s : SmallState) (t : String) : Option DBErr × SmallState :=
  if s.mode = Mode.ro then (some DBErr.readOnlyDatabaseError, s)
  else
    match alookup s.db_ref t with
    | none => (some DBErr.tableReferenceError, s)
    | some _ =>
        (none, { s with db_ref := aerase s.db_ref t, log := logAdd s.log t })

/-- First loop of `SmallDB.save`: over a snapshot of the backend's keys,
delete from the backend and from the log every name that is logged but
absent from the staging area. -/
def saveDel : List String → SmallState → SmallState
  | [], st => st
  | k :: ks, st =>
      if k ∈ st.log ∧ alookup st.db_ref k = none then
        saveDel ks { st with db := aerase st.db k, log := st.log.erase k }
      else
        saveDel ks st

/-- Second loop of `SmallDB.save`: `self.db[key] = self.db_ref[key]` for
every logged name; a logged name absent from the staging area raises an
uncaught `KeyError`. -/
def saveWrite : List String → SmallState → Option DBErr × SmallState
  | [], st => (none, st)
  | k :: ks, st =>
      match alookup st.db_ref k with
      | none => (some DBErr.pyKeyError, st)
      | some tbl => saveWrite ks { st with db := aset st.db k tbl }

/-- `SmallDB.save`: guard read-only mode, run the deletion loop over the
backend's current keys, then write back every logged table.  Note the log
is never cleared of the names that were written. -/
def save (s : SmallState) : Option DBErr × SmallState :=
  if s.mode = Mode.ro then (some DBErr.readOnlyDatabaseError, s)
  else
    let s1 := saveDel (s.db.map Prod.fst) s
    saveWrite s1.log s1

/-- `SmallDB.drop`: guard read-only mode, then rerun construction from the
file (which holds the backend contents `s.db`); `__init__` is called with
the default mode, so the reopened state is read-write with an empty log. -/
def drop (s : SmallState) : Option DBErr × SmallState :=
  if s.mode = Mode.ro then (some DBErr.readOnlyDatabaseError, s)
  else (none, openSmall s.db Mode.rw)

/-- `SmallDB.close`: save when the log is non-empty (an exception from
`save` escapes before the handle is closed), then close the shelve
handle.  Nothing records closedness anywhere the mutators look at. -/
def close (s : SmallState) : Option DBErr × SmallState :=
  let r := if s.log.length ≠ 0 then save s else (none, s)
  match r.1 with
  | some e => (some e, r.2)
  | none => (none, { r.2 with closed := true })

end SmallDB

/-- State of a `MemDB` object: `MemDB.__open__` never sets `self.db`, so
the state is mode, the remembered source (`self.dbfile`, embedded as the
contents behind that filename), staging area and log. -/
structure MemState where
  mode : Mode
  srcFile : Option Backend
  db_ref : Backend
  log : List String
deriving DecidableEq

/-- `MemDB.__open__`: with a source, build a throwaway `SmallDB` over it,
deep-copy its staging area and close it (its log is empty so nothing is
saved and the source is untouched); without a source start empty.  Either
way the log starts empty. -/
def memOpen (dbf : Option Backend) (m : Mode) : MemState :=
  match dbf with
  | some b => { mode := m, srcFile := some b, db_ref := b, log := [] }
  | none => { mode := m, srcFile := none, db_ref := [], log := [] }

/-- `MemDB.__init__(dbf, mode)`: never needs a filename, so construction
succeeds for both modes with or without a source. -/
def mkMemDB (dbf : Option Backend) (m : Mode) : Except DBErr MemState :=
  Except.ok (memOpen dbf m)

namespace MemDB

/-- `SmallDB.drop` as inherited by `MemDB`: guard read-only mode, then
`self.__init__(self.dbfile)` redispatches to `MemDB.__open__` with the
default read-write mode. -/
def drop (m : MemState) : Option DBErr × MemState :=
  if m.mode = Mode.ro then (some DBErr.readOnlyDatabaseError, m)
  else (none, memOpen m.srcFile Mode.rw)

/-- `MemDB.replicate_from_smalldb`: reinitialize from the given source, or
from the remembered one when none is given; `__init__` runs with the
default read-write mode. -/
def replicate_from (m : MemState) (dbf : Option Backend) : MemState :=
  match dbf with
  | none =>
      match m.srcFile with
      | some b => memOpen (some b) Mode.rw
      | none => memOpen none Mode.rw
  | some b => memOpen (some b) Mode.rw

/-- `MemDB.replicate_to_smalldb` aimed at a target file whose current
contents are `target`: open a read-write `SmallDB` over it, overwrite its
staging area and log with deep copies of this instance's, `save`, then
`close` (which saves again when the log is non-empty, since `save` never
clears it).  Returns the exception, if any, and the target backend's
final contents.  Note the method never checks `self.mode`. -/
def replicate_to (m : MemState) (target : Backend) : Option DBErr × Backend :=
  let s0 := openSmall target Mode.rw
  let s1 := { s0 with db_ref := m.db_ref, log := m.log }
  let r := SmallDB.save s1
  match r.1 with
  | some e => (some e, r.2.db)
  | none =>
      let r2 := SmallDB.close r.2
      (r2.1, r2.2.db)

end MemDB

/-! Helper lemmas about the dict embedding and the two loops of `save`. -/

theorem alookup_aset {α : Type} (l : List (String × α)) (k t : String) (v : α) :
    alookup (aset l k v) t = if k = t then some v else alookup l t := by
  induction l with
  | nil => simp [aset, alookup]
  | cons p rest ih =>
    obtain ⟨k', v'⟩ := p
    by_cases hk : k' = k
    · subst hk
      by_cases ht : k' = t <;> simp [aset, alookup, ht]
    · by_cases ht : k' = t
      · subst ht
        have : ¬ k = k' := fun h => hk h.symm
        simp [aset, alookup, hk, this]
      · simp [aset, alookup, hk, ht, ih]

theorem aset_aset {α : Type} (l : List (String × α)) (t : String) (a b : α) :
    aset (aset l t a) t b = aset l t b := by
  induction l with
  | nil => simp [aset]
  | cons p rest ih =>
    obtain ⟨k', v'⟩ := p
    by_cases hk : k' = t
    · simp [aset, hk]
    · simp [aset, hk, ih]

theorem alookup_mem {α : Type} (l : List (String × α)) (t : String) (v : α)
    (h : alookup l t = some v) : (t, v) ∈ l := by
  induction l with
  | nil => simp [alookup] at h
  | cons p rest ih =>
    obtain ⟨k', v'⟩ := p
    by_cases hk : k' = t
    · subst hk
      simp [alookup] at h
      simp [h]
    · simp [alookup, hk] at h
      exact List.mem_cons_of_mem _ (ih h)

theorem logAdd_idem (l : List String) (t : String) :
    logAdd (logAdd l t) t = logAdd l t := by
  by_cases h : t ∈ l <;> simp [logAdd, h]

/-- The deletion loop of `save` does nothing when no iterated name is both
logged and missing from the staging area. -/
theorem saveDel_id (ks : List String) (st : SmallState)
    (h : ∀ k, k ∈ ks → k ∈ st.log → alookup st.db_ref k ≠ none) :
    SmallDB.saveDel ks st = st := by
  induction ks with
  | nil => rfl
  | cons k ks ih =>
    have hk : ¬(k ∈ st.log ∧ alookup st.db_ref k = none) := by
      rintro ⟨ha, hb⟩
      exact h k (List.mem_cons_self k ks) ha hb
    simp only [SmallDB.saveDel, if_neg hk]
    exact ih fun x hx hl => h x (List.mem_cons_of_mem _ hx) hl

/-- The write-back loop of `save` succeeds when every iterated name is in
the staging area; it changes only the backend, writing each staged table
under its name. -/
theorem saveWrite_ok (ks : List String) (st : SmallState)
    (h : ∀ k, k ∈ ks → alookup st.db_ref k ≠ none) :
    (SmallDB.saveWrite ks st).1 = none ∧
    (SmallDB.saveWrite ks st).2.mode = st.mode ∧
    (SmallDB.saveWrite ks st).2.db_ref = st.db_ref ∧
    (SmallDB.saveWrite ks st).2.log = st.log ∧
    (SmallDB.saveWrite ks st).2.closed = st.closed ∧
    ∀ t, alookup (SmallDB.saveWrite ks st).2.db t =
      if t ∈ ks then alookup st.db_ref t else alookup st.db t := by
  induction ks generalizing st with
  | nil => simp [SmallDB.saveWrite]
  | cons k ks ih =>
    cases hk : alookup st.db_ref k with
    | none => exact absurd hk (h k (List.mem_cons_self k ks))
    | some tbl =>
      have hrw : SmallDB.saveWrite (k :: ks) st
          = SmallDB.saveWrite ks { st with db := aset st.db k tbl } := by
        simp only [SmallDB.saveWrite, hk]
      have ih2 := ih { st with db := aset st.db k tbl } (fun x hx => h x (List.mem_cons_of_mem _ hx))
      obtain ⟨i1, i2, i3, i4, i5, i6⟩ := ih2
      rw [hrw]
      refine ⟨i1, i2, i3, i4, i5, fun t => ?_⟩
      rw [i6 t]
      by_cases hts : t ∈ ks
      · simp [hts, List.mem_cons_of_mem]
      · by_cases htk : t = k
        · subst htk
          simp [hts, alookup_aset, hk]
        · have hkt : ¬ k = t := fun hh => htk hh.symm
          have htks : t ∉ k :: ks := by simp [htk, hts]
          simp [hts, htks, alookup_aset, hkt]

/-- `close` on a read-write state whose logged names all exist in the
staging area: no exception, staging area and log untouched, and the
backend afterwards holds every logged table (written from the staging
area) with all other backend entries unchanged. -/
theorem close_inv (A : SmallState) (hmode : A.mode = Mode.rw)
    (h : ∀ k, k ∈ A.log → alookup A.db_ref k ≠ none) :
    (SmallDB.close A).1 = none ∧
    (SmallDB.close A).2.db_ref = A.db_ref ∧
    (SmallDB.close A).2.log = A.log ∧
    ∀ t, alookup (SmallDB.close A).2.db t =
      if t ∈ A.log then alookup A.db_ref t else alookup A.db t := by
  by_cases hl : A.log.length ≠ 0
  · have hdel : SmallDB.saveDel (A.db.map Prod.fst) A = A :=
      saveDel_id _ _ fun k _ hk => h k hk
    have hsave : SmallDB.save A = SmallDB.saveWrite A.log A := by
      rw [SmallDB.save, if_neg (by rw [hmode]; intro hc; cases hc), hdel]
    obtain ⟨w1, _, wref, wlog, _, wdb⟩ := saveWrite_ok A.log A h
    have hclose : SmallDB.close A
        = (none, { (SmallDB.saveWrite A.log A).2 with closed := true }) := by
      rw [SmallDB.close]
      simp only [if_pos hl, hsave, w1]
    rw [hclose]
    exact ⟨rfl, wref, wlog, wdb⟩
  · have hclose : SmallDB.close A = (none, { A with closed := true }) := by
      rw [SmallDB.close]
      simp only [if_neg hl]
    have hlog : A.log = [] := List.length_eq_zero.mp (by omega)
    rw [hclose]
    refine ⟨rfl, rfl, rfl, fun t => ?_⟩
    rw [hlog]
    simp

/-- `replicate_to` into an empty target backend, for an instance whose
logged names all exist in its staging area: the export succeeds and the
produced backend holds exactly the logged tables. -/
theorem replicate_to_empty (s : MemState)
    (h1 : ∀ k, k ∈ s.log → alookup s.db_ref k ≠ none) :
    (MemDB.replicate_to s []).1 = none ∧
    ∀ t, alookup (MemDB.replicate_to s []).2 t =
      if t ∈ s.log then alookup s.db_ref t else none := by
  obtain ⟨w1, wmode, wref, wlog, _, wdb⟩ :=
    saveWrite_ok s.log (⟨Mode.rw, [], s.db_ref, s.log, false⟩ : SmallState) h1
  have hsave : SmallDB.save (⟨Mode.rw, [], s.db_ref, s.log, false⟩ : SmallState)
      = SmallDB.saveWrite s.log (⟨Mode.rw, [], s.db_ref, s.log, false⟩ : SmallState) := by
    rw [SmallDB.save]
    simp [SmallDB.saveDel]
  have hA : ∀ k, k ∈ (SmallDB.saveWrite s.log
        (⟨Mode.rw, [], s.db_ref, s.log, false⟩ : SmallState)).2.log →
      alookup (SmallDB.saveWrite s.log
        (⟨Mode.rw, [], s.db_ref, s.log, false⟩ : SmallState)).2.db_ref k ≠ none := by
    intro k hk
    rw [wref]
    exact h1 k (by rw [wlog] at hk; exact hk)
  obtain ⟨c1, cref, clog, cdb⟩ := close_inv _ wmode hA
  have hrt : MemDB.replicate_to s []
      = ((SmallDB.close (SmallDB.saveWrite s.log
            (⟨Mode.rw, [], s.db_ref, s.log, false⟩ : SmallState)).2).1,
         (SmallDB.close (SmallDB.saveWrite s.log
            (⟨Mode.rw, [], s.db_ref, s.log, false⟩ : SmallState)).2).2.db) := by
    show (match (SmallDB.save
            (⟨Mode.rw, [], s.db_ref, s.log, false⟩ : SmallState)).1 with
          | some e => (some e, (SmallDB.save
              (⟨Mode.rw, [], s.db_ref, s.log, false⟩ : SmallState)).2.db)
          | none => ((SmallDB.close (SmallDB.save
                (⟨Mode.rw, [], s.db_ref, s.log, false⟩ : SmallState)).2).1,
              (SmallDB.close (SmallDB.save
                (⟨Mode.rw, [], s.db_ref, s.log, false⟩ : SmallState)).2).2.db))
        = _
    rw [hsave, w1]
  rw [hrt]
  refine ⟨c1, fun t => ?_⟩
  rw [cdb t, wlog, wref, wdb t]
  by_cases ht : t ∈ s.log
  · simp [ht]
  · simp [ht, alookup]

/-! The claims. -/

/-- C1: the claim says the dirty-table log is empty immediately after a
successful `save()`.  The code never removes written names from the log:
after `create_table` of one table on an empty backend, `save` returns
normally yet the log still holds that table's name; similarly, an
`append` that fails on a value with no `append` method still marks the
table dirty (the `AttributeError` is printed and swallowed) while the
staging area is unchanged. -/
theorem c1_save_leaves_log_nonempty :
    (SmallDB.save (SmallDB.create_table (openSmall [] Mode.rw) "t").2).1 = none ∧
    (SmallDB.save (SmallDB.create_table (openSmall [] Mode.rw) "t").2).2.log = ["t"] ∧
    (SmallDB.append (openSmall [("t", [("k", PyVal.vInt 1)])] Mode.rw) "t" "k"
        (PyVal.vInt 2)).1 = none ∧
    (SmallDB.append (openSmall [("t", [("k", PyVal.vInt 1)])] Mode.rw) "t" "k"
        (PyVal.vInt 2)).2.log = ["t"] ∧
    (SmallDB.append (openSmall [("t", [("k", PyVal.vInt 1)])] Mode.rw) "t" "k"
        (PyVal.vInt 2)).2.db_ref = [("t", [("k", PyVal.vInt 1)])] := by
  decide

/-- C2: the claim says `save()` succeeds after any mutation sequence,
including `create_table` followed by `remove_table` of a never-persisted
table.  On that very sequence the code's write-back loop evaluates
`self.db_ref[key]` for the logged-but-removed name and raises an uncaught
`KeyError`. -/
theorem c2_save_raises_keyerror :
    (SmallDB.save (SmallDB.remove_table
        (SmallDB.create_table (openSmall [] Mode.rw) "t").2 "t").2).1
      = some DBErr.pyKeyError := by
  decide

/-- C3: in read-only mode every mutating operation fails with
`ReadOnlyDatabaseError` as its first observable effect, returning with the
state exactly as it was before the call. -/
theorem c3_readonly_guard (s : SmallState) (t k : String) (v : PyVal)
    (h : s.mode = Mode.ro) :
    SmallDB.create_table s t = (some DBErr.readOnlyDatabaseError, s) ∧
    SmallDB.insert s t k v = (some DBErr.readOnlyDatabaseError, s) ∧
    SmallDB.update s t k v = (some DBErr.readOnlyDatabaseError, s) ∧
    SmallDB.append s t k v = (some DBErr.readOnlyDatabaseError, s) ∧
    SmallDB.add s t k v = (some DBErr.readOnlyDatabaseError, s) ∧
    SmallDB.remove s t k = (some DBErr.readOnlyDatabaseError, s) ∧
    SmallDB.remove_table s t = (some DBErr.readOnlyDatabaseError, s) ∧
    SmallDB.save s = (some DBErr.readOnlyDatabaseError, s) ∧
    SmallDB.drop s = (some DBErr.readOnlyDatabaseError, s) := by
  refine ⟨?_, ?_, ?_, ?_, ?_, ?_, ?_, ?_, ?_⟩ <;>
    simp [SmallDB.create_table, SmallDB.insert, SmallDB.update, SmallDB.append,
          SmallDB.add, SmallDB.remove, SmallDB.remove_table, SmallDB.save,
          SmallDB.drop, h]

/-- C3 witness: a concrete read-only database rejects a concrete mutation. -/
theorem c3_readonly_guard_witness :
    (openSmall [] Mode.ro).mode = Mode.ro ∧
    SmallDB.create_table (openSmall [] Mode.ro) "t"
      = (some DBErr.readOnlyDatabaseError, openSmall [] Mode.ro) :=
  ⟨rfl, (c3_readonly_guard (openSmall [] Mode.ro) "t" "k" (PyVal.vInt 0) rfl).1⟩

/-- C4: on a read-write database, `insert` auto-creates a missing table
and then inserts; an existing key fails `DuplicateKeyError` with the
state returned exactly as it was; otherwise the value is stored and the
table marked dirty. -/
theorem c4_insert_behavior (s : SmallState) (t k : String) (v : PyVal)
    (hm : s.mode = Mode.rw) :
    (alookup s.db_ref t = none →
      SmallDB.insert s t k v
        = (none, { s with db_ref := aset s.db_ref t [(k, v)], log := logAdd s.log t })) ∧
    (∀ tbl, alookup s.db_ref t = some tbl → alookup tbl k ≠ none →
      SmallDB.insert s t k v = (some DBErr.duplicateKeyError, s)) ∧
    (∀ tbl, alookup s.db_ref t = some tbl → alookup tbl k = none →
      SmallDB.insert s t k v
        = (none, { s with db_ref := aset s.db_ref t (aset tbl k v), log := logAdd s.log t })) := by
  refine ⟨?_, ?_, ?_⟩
  · intro habs
    simp [SmallDB.insert, hm, habs, SmallDB.insertInto, SmallDB.create_table,
          alookup, aset, aset_aset, logAdd_idem]
  · intro tbl htbl hk
    cases hkk : alookup tbl k with
    | none => exact absurd hkk hk
    | some w => simp [SmallDB.insert, hm, htbl, SmallDB.insertInto, hkk]
  · intro tbl htbl hk
    simp [SmallDB.insert, hm, htbl, SmallDB.insertInto, hk]

/-- C4 witness: concrete auto-create insert, duplicate-key failure, and
plain insert. -/
theorem c4_insert_behavior_witness :
    SmallDB.insert (openSmall [] Mode.rw) "t" "k" (PyVal.vInt 7)
      = (none, { (openSmall [] Mode.rw) with
                  db_ref := aset [] "t" [("k", PyVal.vInt 7)], log := logAdd [] "t" }) ∧
    SmallDB.insert (openSmall [("t", [("k", PyVal.vInt 1)])] Mode.rw) "t" "k" (PyVal.vInt 7)
      = (some DBErr.duplicateKeyError, openSmall [("t", [("k", PyVal.vInt 1)])] Mode.rw) :=
  ⟨(c4_insert_behavior (openSmall [] Mode.rw) "t" "k" (PyVal.vInt 7) rfl).1 rfl,
   (c4_insert_behavior (openSmall [("t", [("k", PyVal.vInt 1)])] Mode.rw) "t" "k"
      (PyVal.vInt 7) rfl).2.1 [("k", PyVal.vInt 1)] rfl (by decide)⟩

/-- C5: on a read-write database, `update` on an existing table
unconditionally stores the value (creating the key if absent — `aset`
replaces or adds) and marks the table dirty; on a missing table it fails
`TableReferenceError` with the state returned exactly as it was. -/
theorem c5_update_behavior (s : SmallState) (t k : String) (v : PyVal)
    (hm : s.mode = Mode.rw) :
    (∀ tbl, alookup s.db_ref t = some tbl →
      SmallDB.update s t k v
        = (none, { s with db_ref := aset s.db_ref t (aset tbl k v), log := logAdd s.log t })) ∧
    (alookup s.db_ref t = none →
      SmallDB.update s t k v = (some DBErr.tableReferenceError, s)) := by
  refine ⟨?_, ?_⟩
  · intro tbl htbl
    simp [SmallDB.update, hm, htbl]
  · intro habs
    simp [SmallDB.update, hm, habs]

/-- C5 witness: concrete update of an existing key and failure on a
missing table. -/
theorem c5_update_behavior_witness :
    SmallDB.update (openSmall [("t", [("k", PyVal.vInt 1)])] Mode.rw) "t" "k" (PyVal.vInt 9)
      = (none, { (openSmall [("t", [("k", PyVal.vInt 1)])] Mode.rw) with
                  db_ref := aset [("t", [("k", PyVal.vInt 1)])] "t"
                    (aset [("k", PyVal.vInt 1)] "k" (PyVal.vInt 9)),
                  log := logAdd [] "t" }) ∧
    SmallDB.update (openSmall [] Mode.rw) "missing" "k" (PyVal.vInt 9)
      = (some DBErr.tableReferenceError, openSmall [] Mode.rw) :=
  ⟨(c5_update_behavior (openSmall [("t", [("k", PyVal.vInt 1)])] Mode.rw) "t" "k"
      (PyVal.vInt 9) rfl).1 [("k", PyVal.vInt 1)] rfl,
   (c5_update_behavior (openSmall [] Mode.rw) "missing" "k" (PyVal.vInt 9) rfl).2 rfl⟩

/-- C6: the claim says an unsupported `append`/`add` surfaces an explicit
`UnsupportedOperationError`.  No such exception exists in the code: on an
int-valued record, `append` catches the `AttributeError`, prints it, marks
the table dirty and returns normally (the error is swallowed), while `add`
with a type mismatch lets the raw `TypeError` escape uncaught. -/
theorem c6_append_add_failure :
    SmallDB.append (openSmall [("t", [("k", PyVal.vInt 1)])] Mode.rw) "t" "k" (PyVal.vInt 2)
      = (none, { (openSmall [("t", [("k", PyVal.vInt 1)])] Mode.rw) with log := ["t"] }) ∧
    (SmallDB.add (openSmall [("t", [("k", PyVal.vInt 1)])] Mode.rw) "t" "k"
        (PyVal.vStr "x")).1 = some DBErr.pyTypeError := by
  decide

/-- C7: the claim says mutations after `close()` fail with
`StoreClosedError`.  The code has no such guard (and no such exception):
after closing a clean database, `insert` still succeeds and mutates the
staging area, with the shelve handle released. -/
theorem c7_no_post_close_guard :
    (SmallDB.close (openSmall [] Mode.rw)).2.closed = true ∧
    SmallDB.insert (SmallDB.close (openSmall [] Mode.rw)).2 "t" "k" (PyVal.vInt 0)
      = (none, { ((SmallDB.close (openSmall [] Mode.rw)).2) with
                  db_ref := [("t", [("k", PyVal.vInt 0)])], log := ["t"] }) := by
  decide

/-- C8 counterexample: a memory-only store built from a one-table source,
exported with `replicate_to` into an empty target, re-imported with
`replicate_from` into a fresh sourceless instance: the export raises
nothing but writes nothing (the instance's log is empty), so the
re-imported staging area is empty while the original's is not. -/
theorem c8_counterexample :
    (MemDB.replicate_to (memOpen (some [("t", [("k", PyVal.vInt 1)])]) Mode.rw) []).1
      = none ∧
    (MemDB.replicate_from (memOpen none Mode.rw)
        (some (MemDB.replicate_to
          (memOpen (some [("t", [("k", PyVal.vInt 1)])]) Mode.rw) []).2)).db_ref
      = [] ∧
    (memOpen (some [("t", [("k", PyVal.vInt 1)])]) Mode.rw).db_ref
      = [("t", [("k", PyVal.vInt 1)])] := by
  decide

/-- C8 (amended): for a memory-only store whose dirty-table log holds
exactly its staged table names — the situation of every sourceless store
that never used `remove_table` — `replicate_to` into an empty target
succeeds, and re-importing the produced backend into a fresh sourceless
instance reproduces the original staging area: same table-name set, same
per-table contents. -/
theorem c8_logged_roundtrip (s : MemState)
    (h1 : ∀ k, k ∈ s.log → alookup s.db_ref k ≠ none)
    (h2 : ∀ p, p ∈ s.db_ref → p.1 ∈ s.log) :
    (MemDB.replicate_to s []).1 = none ∧
    ∀ t, alookup (MemDB.replicate_from (memOpen none Mode.rw)
          (some (MemDB.replicate_to s []).2)).db_ref t
        = alookup s.db_ref t := by
  obtain ⟨e0, hb⟩ := replicate_to_empty s h1
  refine ⟨e0, fun t => ?_⟩
  have hfrom : (MemDB.replicate_from (memOpen none Mode.rw)
        (some (MemDB.replicate_to s []).2)).db_ref
      = (MemDB.replicate_to s []).2 := rfl
  rw [hfrom, hb t]
  by_cases ht : t ∈ s.log
  · rw [if_pos ht]
  · rw [if_neg ht]
    cases hv : alookup s.db_ref t with
    | none => rfl
    | some v => exact absurd (h2 (t, v) (alookup_mem _ _ _ hv)) ht

/-- C8 witness: a concrete sourceless store with one logged table
round-trips through `replicate_to` and `replicate_from`. -/
theorem c8_logged_roundtrip_witness :
    (MemDB.replicate_to
        { mode := Mode.rw, srcFile := none,
          db_ref := [("t", [("k", PyVal.vInt 1)])], log := ["t"] } []).1 = none ∧
    alookup (MemDB.replicate_from (memOpen none Mode.rw)
        (some (MemDB.replicate_to
          { mode := Mode.rw, srcFile := none,
            db_ref := [("t", [("k", PyVal.vInt 1)])], log := ["t"] } []).2)).db_ref "t"
      = alookup [("t", [("k", PyVal.vInt 1)])] "t" :=
  ⟨(c8_logged_roundtrip
      { mode := Mode.rw, srcFile := none,
        db_ref := [("t", [("k", PyVal.vInt 1)])], log := ["t"] }
      (by decide) (by decide)).1,
   (c8_logged_roundtrip
      { mode := Mode.rw, srcFile := none,
        db_ref := [("t", [("k", PyVal.vInt 1)])], log := ["t"] }
      (by decide) (by decide)).2 "t"⟩

/-- C9: constructing a `SmallDB` with no backend filename raises
`DBInitializationError` in both modes, while a `MemDB` constructed
without a source succeeds in both modes, starting with an empty staging
area and an empty log. -/
theorem c9_construction (m : Mode) :
    mkSmallDB none m = Except.error DBErr.dbInitializationError ∧
    mkMemDB none m = Except.ok (memOpen none m) ∧
    (memOpen none m).db_ref = [] ∧
    (memOpen none m).log = [] := by
  cases m <;> exact ⟨rfl, rfl, rfl, rfl⟩

/-- C10 counterexample: the claim quantifies over every sourceless
memory-only store, but on one constructed read-only `drop()` fails with
`ReadOnlyDatabaseError` instead of reinitializing. -/
theorem c10_counterexample_readonly :
    MemDB.drop (memOpen none Mode.ro)
      = (some DBErr.readOnlyDatabaseError, memOpen none Mode.ro) := by
  decide

/-- C10 (amended): for every read-write memory-only store constructed
without a source, `drop()` does not fail and reinitializes the instance
to an empty staging area and an empty dirty-table log, whatever tables
and records it held. -/
theorem c10_memdrop_resets (s : MemState)
    (hm : s.mode = Mode.rw) (hs : s.srcFile = none) :
    MemDB.drop s = (none, { mode := Mode.rw, srcFile := none, db_ref := [], log := [] }) := by
  rw [MemDB.drop, if_neg (by rw [hm]; intro hc; cases hc), hs]
  rfl

/-- C10 witness: a concrete read-write sourceless store with data is
reset by `drop`. -/
theorem c10_memdrop_resets_witness :
    MemDB.drop
        { mode := Mode.rw, srcFile := none,
          db_ref := [("t", [("k", PyVal.vInt 1)])], log := ["t"] }
      = (none, { mode := Mode.rw, srcFile := none, db_ref := [], log := [] }) :=
  c10_memdrop_resets
    { mode := Mode.rw, srcFile := none,
      db_ref := [("t", [("k", PyVal.vInt 1)])], log := ["t"] } rfl rfl

end PetitDB
